import Mathlib

/-!
Verification of the Vietnamese Gross-to-Net payroll calculator
(`src/frontend/app.py`).  Monetary amounts are modelled as rationals;
Python's built-in `round` (round-half-to-even) is modelled by `pyRound`.
The calculator `calculate_gross_to_net` and the batch-upload row loop are
embedded below, keeping the source's names and order of operations.
-/

namespace GrossToNet

/-- Python's `round` on a rational: round half to even. -/
def pyRound (q : ℚ) : ℤ :=
  if q - ⌊q⌋ < 1/2 then ⌊q⌋
  else if 1/2 < q - ⌊q⌋ then ⌊q⌋ + 1
  else if Even ⌊q⌋ then ⌊q⌋ else ⌊q⌋ + 1

/-- Constant `PERSONAL_ALLOWANCE = 11_000_000` from the source. -/
def PERSONAL_ALLOWANCE : ℚ := 11000000

/-- Constant `DEPENDENT_ALLOWANCE = 4_400_000` from the source. -/
def DEPENDENT_ALLOWANCE : ℚ := 4400000

/-- Constant `RATE_SOCIAL_INSURANCE = 0.08` from the source. -/
def RATE_SOCIAL_INSURANCE : ℚ := 8/100

/-- Constant `RATE_HEALTH_INSURANCE = 0.015` from the source. -/
def RATE_HEALTH_INSURANCE : ℚ := 15/1000

/-- Constant `RATE_UNEMPLOYMENT_INSURANCE = 0.01` from the source. -/
def RATE_UNEMPLOYMENT_INSURANCE : ℚ := 1/100

/-- Constant `BASE_SALARY_FOR_CAPS = 2_340_000` from the source. -/
def BASE_SALARY_FOR_CAPS : ℚ := 2340000

/-- Constant `BHXH_BHYT_CAP_MULTIPLIER = 20` from the source. -/
def BHXH_BHYT_CAP_MULTIPLIER : ℚ := 20

/-- Constant `BHTN_CAP_MULTIPLIER = 20` from the source. -/
def BHTN_CAP_MULTIPLIER : ℚ := 20

/-- Constant `BHXH_BHYT_MAX_BASE = BASE_SALARY_FOR_CAPS * BHXH_BHYT_CAP_MULTIPLIER`. -/
def BHXH_BHYT_MAX_BASE : ℚ := BASE_SALARY_FOR_CAPS * BHXH_BHYT_CAP_MULTIPLIER

/-- The dict `REGIONAL_MINIMUM_WAGES`: region code to minimum wage, absent keys give `none`. -/
def REGIONAL_MINIMUM_WAGES (r : ℤ) : Option ℚ :=
  if r = 1 then some 4960000
  else if r = 2 then some 4410000
  else if r = 3 then some 3860000
  else if r = 4 then some 3450000
  else none

/-- One entry of `PIT_BRACKETS`; `limit = none` models `float('inf')`. -/
structure Bracket where
  limit : Option ℚ
  rate : ℚ
  deduction : ℚ
deriving DecidableEq

/-- The literal `PIT_BRACKETS` table from the source. -/
def PIT_BRACKETS : List Bracket :=
  [⟨some 5000000, 5/100, 0⟩,
   ⟨some 10000000, 10/100, 250000⟩,
   ⟨some 18000000, 15/100, 750000⟩,
   ⟨some 32000000, 20/100, 1650000⟩,
   ⟨some 52000000, 25/100, 3250000⟩,
   ⟨some 80000000, 30/100, 5850000⟩,
   ⟨none, 35/100, 9850000⟩]

/-- The bracket-walk loop of `calculate_gross_to_net` (lines 131-139): while
`taxable_income > previous_limit`, tax the slice `min(taxable, limit) - previous_limit`
at the bracket's rate; `break` otherwise.  An infinite limit (`none`) taxes
`taxable - previous_limit` and the loop necessarily breaks at the next iteration. -/
def pitWalk (t : ℚ) : ℚ → List Bracket → ℚ
  | _, [] => 0
  | prev, b :: rest =>
    if prev < t then
      match b.limit with
      | some l => (min t l - prev) * b.rate + pitWalk t l rest
      | none => (t - prev) * b.rate
    else 0

/-- Input model `GrossNetInput` (fields as in the source; the calculator itself
performs no range validation on them). -/
structure GrossNetInput where
  gross_income : ℚ
  num_dependents : ℤ
  region : ℤ
deriving DecidableEq

/-- Output model `InsuranceBreakdown`; every field is stored rounded. -/
structure InsuranceBreakdown where
  social_insurance : ℤ
  health_insurance : ℤ
  unemployment_insurance : ℤ
  total : ℤ
deriving DecidableEq

/-- Output model `GrossNetResult`; every monetary field is stored rounded. -/
structure GrossNetResult where
  gross_income : ℤ
  net_income : ℤ
  personal_income_tax : ℤ
  total_insurance_contribution : ℤ
  insurance_breakdown : InsuranceBreakdown
  taxable_income : ℤ
  pre_tax_income : ℤ
deriving DecidableEq

/-- The only failure of the calculator: `ValueError` for an unknown region,
carrying the offending region code. -/
inductive CalcError where
  | invalidRegion (region : ℤ)
deriving DecidableEq

/-- Line 102: `insurance_base = max(insurance_base_input, regional_min_wage)`. -/
def insuranceBase (g mw : ℚ) : ℚ := max g mw

/-- Line 107: `salary_base_bhxh_bhyt = max(min(insurance_base, bhxh_bhyt_cap), regional_min_wage)`. -/
def salaryBaseBhxhBhyt (g mw : ℚ) : ℚ :=
  max (min (insuranceBase g mw) BHXH_BHYT_MAX_BASE) mw

/-- Line 108: `salary_base_bhtn = max(min(insurance_base, bhtn_cap), regional_min_wage)`
with `bhtn_cap = regional_min_wage * BHTN_CAP_MULTIPLIER`. -/
def salaryBaseBhtn (g mw : ℚ) : ℚ :=
  max (min (insuranceBase g mw) (mw * BHTN_CAP_MULTIPLIER)) mw

/-- Line 110: unrounded `bhxh = salary_base_bhxh_bhyt * RATE_SOCIAL_INSURANCE`. -/
def bhxh (g mw : ℚ) : ℚ := salaryBaseBhxhBhyt g mw * RATE_SOCIAL_INSURANCE

/-- Line 111: unrounded `bhyt = salary_base_bhxh_bhyt * RATE_HEALTH_INSURANCE`. -/
def bhyt (g mw : ℚ) : ℚ := salaryBaseBhxhBhyt g mw * RATE_HEALTH_INSURANCE

/-- Line 112: unrounded `bhtn = salary_base_bhtn * RATE_UNEMPLOYMENT_INSURANCE`. -/
def bhtn (g mw : ℚ) : ℚ := salaryBaseBhtn g mw * RATE_UNEMPLOYMENT_INSURANCE

/-- Line 113: unrounded `total_insurance = bhxh + bhyt + bhtn`. -/
def totalInsurance (g mw : ℚ) : ℚ := bhxh g mw + bhyt g mw + bhtn g mw

/-- Line 122: `pre_tax_income = gross_income - total_insurance` (unrounded sum). -/
def preTaxIncome (g mw : ℚ) : ℚ := g - totalInsurance g mw

/-- Lines 124-126: `total_allowances = PERSONAL_ALLOWANCE + num_dependents * DEPENDENT_ALLOWANCE`. -/
def totalAllowances (d : ℤ) : ℚ := PERSONAL_ALLOWANCE + d * DEPENDENT_ALLOWANCE

/-- Lines 128-129: `taxable_income = max(0, pre_tax_income - total_allowances)`. -/
def taxableIncome (g : ℚ) (d : ℤ) (mw : ℚ) : ℚ :=
  max 0 (preTaxIncome g mw - totalAllowances d)

/-- The unrounded PIT accumulated by the bracket loop, starting at `previous_limit = 0`. -/
def pitUnrounded (t : ℚ) : ℚ := pitWalk t 0 PIT_BRACKETS

/-- Line 141: `pit = max(0, round(pit))`. -/
def pitRounded (g : ℚ) (d : ℤ) (mw : ℚ) : ℤ :=
  max 0 (pyRound (pitUnrounded (taxableIncome g d mw)))

/-- Line 143: `net_income = gross_income - total_insurance - pit`
(unrounded insurance sum, rounded pit). -/
def netIncomeUnrounded (g : ℚ) (d : ℤ) (mw : ℚ) : ℚ :=
  g - totalInsurance g mw - (pitRounded g d mw : ℚ)

/-- Lines 115-153: the `GrossNetResult` built once the region lookup succeeded. -/
def buildResult (g : ℚ) (d : ℤ) (mw : ℚ) : GrossNetResult :=
  { gross_income := pyRound g
    net_income := pyRound (netIncomeUnrounded g d mw)
    personal_income_tax := pitRounded g d mw
    total_insurance_contribution := pyRound (totalInsurance g mw)
    insurance_breakdown :=
      { social_insurance := pyRound (bhxh g mw)
        health_insurance := pyRound (bhyt g mw)
        unemployment_insurance := pyRound (bhtn g mw)
        total := pyRound (totalInsurance g mw) }
    taxable_income := pyRound (taxableIncome g d mw)
    pre_tax_income := pyRound (preTaxIncome g mw) }

/-- `calculate_gross_to_net` (lines 80-153): raises `ValueError` (modelled as
`Except.error`) exactly when the region is not a key of `REGIONAL_MINIMUM_WAGES`;
otherwise computes the full result.  No other validation is performed. -/
def calculate_gross_to_net (data : GrossNetInput) : Except CalcError GrossNetResult :=
  match REGIONAL_MINIMUM_WAGES data.region with
  | none => .error (.invalidRegion data.region)
  | some mw => .ok (buildResult data.gross_income data.num_dependents mw)

/-- Closed-form PIT from the spec's alternative description (section 4.1 step 11):
find the first bracket whose limit is at least the taxable income and return
`taxable * rate - cumulative_deduction`. -/
def pitClosedForm (t : ℚ) : List Bracket → ℚ
  | [] => 0
  | b :: rest =>
    match b.limit with
    | some l => if t ≤ l then t * b.rate - b.deduction else pitClosedForm t rest
    | none => t * b.rate - b.deduction

/-- One data row of the batch-upload table (the three required columns, after
pandas cell conversion). -/
structure BatchRow where
  GrossIncome : ℚ
  Dependents : ℤ
  Region : ℤ
deriving DecidableEq

/-- One output row of the batch table: the computed columns plus the
status/error columns (`None` cells stay `none` on failure). -/
structure RowResult where
  NetIncome : Option ℤ
  PIT : Option ℤ
  TotalInsurance : Option ℤ
  TaxableIncome : Option ℤ
  PreTaxIncome : Option ℤ
  rowBHXH : Option ℤ
  rowBHYT : Option ℤ
  rowBHTN : Option ℤ
  CalculationStatus : String
  ErrorMessage : String
deriving DecidableEq

/-- The stripped per-row message produced by the batch loop's validity check
(`"Row n: ValueError - Invalid input value(s) in row."` after `split(':')[-1].strip()`). -/
def invalidRowMessage : String := "ValueError - Invalid input value(s) in row."

/-- The body of the batch loop (lines 336-375) for one row: validate the three
cells, call the calculator, and record per-row status and message; any failure
is caught and the loop continues. -/
def processRow (row : BatchRow) : RowResult :=
  if row.GrossIncome ≤ 0 ∨ row.Dependents < 0 ∨
      ¬ (row.Region = 1 ∨ row.Region = 2 ∨ row.Region = 3 ∨ row.Region = 4) then
    { NetIncome := none, PIT := none, TotalInsurance := none,
      TaxableIncome := none, PreTaxIncome := none,
      rowBHXH := none, rowBHYT := none, rowBHTN := none,
      CalculationStatus := "Error", ErrorMessage := invalidRowMessage }
  else
    match calculate_gross_to_net ⟨row.GrossIncome, row.Dependents, row.Region⟩ with
    | .ok res =>
      { NetIncome := some res.net_income,
        PIT := some res.personal_income_tax,
        TotalInsurance := some res.total_insurance_contribution,
        TaxableIncome := some res.taxable_income,
        PreTaxIncome := some res.pre_tax_income,
        rowBHXH := some res.insurance_breakdown.social_insurance,
        rowBHYT := some res.insurance_breakdown.health_insurance,
        rowBHTN := some res.insurance_breakdown.unemployment_insurance,
        CalculationStatus := "Success", ErrorMessage := "" }
    | .error e =>
      { NetIncome := none, PIT := none, TotalInsurance := none,
        TaxableIncome := none, PreTaxIncome := none,
        rowBHXH := none, rowBHYT := none, rowBHTN := none,
        CalculationStatus := "Error",
        ErrorMessage := match e with
          | .invalidRegion _ => invalidRowMessage }

/-- The batch loop over all rows: one output row per input row, in order. -/
def processBatch (rows : List BatchRow) : List RowResult :=
  rows.map processRow

/-! ### Elementary properties of `pyRound` -/

theorem pyRound_le (q : ℚ) : (pyRound q : ℚ) ≤ q + 1/2 := by
  unfold pyRound
  have h1 : (⌊q⌋ : ℚ) ≤ q := Int.floor_le q
  have h2 : q < ⌊q⌋ + 1 := Int.lt_floor_add_one q
  split_ifs with hf hg he <;> push_cast <;> linarith

theorem le_pyRound (q : ℚ) : q - 1/2 ≤ (pyRound q : ℚ) := by
  unfold pyRound
  have h1 : (⌊q⌋ : ℚ) ≤ q := Int.floor_le q
  have h2 : q < ⌊q⌋ + 1 := Int.lt_floor_add_one q
  split_ifs with hf hg he <;> push_cast <;> linarith

theorem pyRound_nonneg {q : ℚ} (h : 0 ≤ q) : 0 ≤ pyRound q := by
  unfold pyRound
  have h1 : 0 ≤ ⌊q⌋ := Int.floor_nonneg.mpr h
  split_ifs <;> omega

theorem pyRound_intCast (n : ℤ) : pyRound (n : ℚ) = n := by
  unfold pyRound
  simp [Int.floor_intCast]

theorem pyRound_add_int (q : ℚ) (m : ℤ) (hm : Even m) : pyRound (q + m) = pyRound q + m := by
  unfold pyRound
  have hfl : ⌊q + (m : ℚ)⌋ = ⌊q⌋ + m := Int.floor_add_int q m
  rw [hfl]
  have hfr : q + (m : ℚ) - ((⌊q⌋ + m : ℤ) : ℚ) = q - (⌊q⌋ : ℚ) := by push_cast; ring
  rw [hfr]
  have hpar : Even (⌊q⌋ + m) ↔ Even ⌊q⌋ := by
    constructor
    · intro h; rcases (Int.even_add.mp h) with h'; exact h'.mpr hm
    · intro h; exact Int.even_add.mpr (iff_of_true h hm)
  split_ifs with h1 h2 h3 h4 <;> simp_all <;> omega

theorem pyRound_mono {q r : ℚ} (h : q ≤ r) : pyRound q ≤ pyRound r := by
  rcases lt_or_le ⌊q⌋ ⌊r⌋ with hf | hf
  · have h1 : pyRound q ≤ ⌊q⌋ + 1 := by
      unfold pyRound; split_ifs <;> omega
    have h2 : ⌊r⌋ ≤ pyRound r := by
      unfold pyRound; split_ifs <;> omega
    omega
  · have hf2 : ⌊q⌋ ≤ ⌊r⌋ := Int.floor_le_floor h
    have heq : ⌊q⌋ = ⌊r⌋ := le_antisymm hf2 hf
    unfold pyRound
    rw [heq]
    have hfr : q - (⌊r⌋ : ℚ) ≤ r - (⌊r⌋ : ℚ) := by linarith
    split_ifs with h1 h2 h3 h4 h5 h6 h7 h8 h9 h10 h11 h12 <;> first
      | omega
      | (exfalso; linarith)

/-! ### The bracket walk: well-formedness, monotonicity, closed form -/

/-- Well-formedness of a bracket list relative to a starting limit: rates are
non-negative and finite limits never decrease. -/
def chainFrom : ℚ → List Bracket → Prop
  | _, [] => True
  | prev, b :: rest =>
    0 ≤ b.rate ∧
      match b.limit with
      | some l => prev ≤ l ∧ chainFrom l rest
      | none => True

theorem chainFrom_PIT_BRACKETS : chainFrom 0 PIT_BRACKETS := by
  simp [chainFrom, PIT_BRACKETS]
  norm_num

theorem pitWalk_nonneg (t : ℚ) : ∀ (prev : ℚ) (bs : List Bracket),
    chainFrom prev bs → 0 ≤ pitWalk t prev bs := by
  intro prev bs
  induction bs generalizing prev with
  | nil => intro _; simp [pitWalk]
  | cons b rest ih =>
    intro hchain
    rcases b with ⟨limit, rate, ded⟩
    cases limit with
    | some l =>
      rcases hchain with ⟨hrate, hl, hrest⟩
      simp only [pitWalk]
      split_ifs with hpt
      · have hmin : prev ≤ min t l := le_min hpt.le hl
        have hslice : 0 ≤ (min t l - prev) * rate := mul_nonneg (by linarith) hrate
        have := ih l hrest
        linarith
      · exact le_refl 0
    | none =>
      rcases hchain with ⟨hrate, -⟩
      simp only [pitWalk]
      split_ifs with hpt
      · have h0 : (0:ℚ) ≤ t - prev := by linarith
        exact mul_nonneg h0 hrate
      · exact le_refl 0

theorem pitWalk_mono {t₁ t₂ : ℚ} (h : t₁ ≤ t₂) : ∀ (prev : ℚ) (bs : List Bracket),
    chainFrom prev bs → pitWalk t₁ prev bs ≤ pitWalk t₂ prev bs := by
  intro prev bs
  induction bs generalizing prev with
  | nil => intro _; simp [pitWalk]
  | cons b rest ih =>
    intro hchain
    rcases b with ⟨limit, rate, ded⟩
    cases limit with
    | some l =>
      rcases hchain with ⟨hrate, hl, hrest⟩
      simp only [pitWalk]
      split_ifs with h1 h2 h2
      · have hmin : min t₁ l ≤ min t₂ l := min_le_min h le_rfl
        have hrec := ih l hrest
        have := mul_le_mul_of_nonneg_right (sub_le_sub_right hmin prev) hrate
        linarith
      · exact absurd (lt_of_lt_of_le h1 h) h2
      · have hx : 0 ≤ pitWalk t₂ prev (⟨some l, rate, ded⟩ :: rest) :=
          pitWalk_nonneg t₂ prev _ ⟨hrate, hl, hrest⟩
        simpa [pitWalk, h2] using hx
      · exact le_refl 0
    | none =>
      rcases hchain with ⟨hrate, -⟩
      simp only [pitWalk]
      split_ifs with h1 h2 h2
      · have := mul_le_mul_of_nonneg_right (sub_le_sub_right h prev) hrate
        linarith
      · exact absurd (lt_of_lt_of_le h1 h) h2
      · have h0 : (0:ℚ) ≤ t₂ - prev := by linarith
        exact mul_nonneg h0 hrate
      · exact le_refl 0

theorem pitWalk_eq_closedForm (t : ℚ) (ht : 0 ≤ t) :
    pitWalk t 0 PIT_BRACKETS = pitClosedForm t PIT_BRACKETS := by
  rcases le_or_lt t 5000000 with h1 | h1
  · rcases eq_or_lt_of_le ht with h0 | h0
    · rw [← h0]
      norm_num [pitWalk, pitClosedForm, PIT_BRACKETS]
    · have m1 : min t (5000000:ℚ) = t := min_eq_left h1
      have n1 : ¬((5000000:ℚ) < t) := not_lt.mpr h1
      simp only [pitWalk, pitClosedForm, PIT_BRACKETS, h0, n1, m1, h1, if_true, if_false]
      ring
  rcases le_or_lt t 10000000 with h2 | h2
  · have c0 : (0:ℚ) < t := by linarith
    have cl1 : ((5000000:ℚ) < t) := by linarith
    have nl1 : ¬(t ≤ (5000000:ℚ)) := not_le.mpr cl1
    have mm1 : min t (5000000:ℚ) = 5000000 := min_eq_right cl1.le
    have nk : ¬((10000000:ℚ) < t) := not_lt.mpr h2
    have mk : min t (10000000:ℚ) = t := min_eq_left h2
    simp only [pitWalk, pitClosedForm, PIT_BRACKETS, c0, cl1, nl1, mm1, nk, mk, h2, if_true, if_false]
    ring
  rcases le_or_lt t 18000000 with h3 | h3
  · have c0 : (0:ℚ) < t := by linarith
    have cl1 : ((5000000:ℚ) < t) := by linarith
    have nl1 : ¬(t ≤ (5000000:ℚ)) := not_le.mpr cl1
    have mm1 : min t (5000000:ℚ) = 5000000 := min_eq_right cl1.le
    have cl2 : ((10000000:ℚ) < t) := by linarith
    have nl2 : ¬(t ≤ (10000000:ℚ)) := not_le.mpr cl2
    have mm2 : min t (10000000:ℚ) = 10000000 := min_eq_right cl2.le
    have nk : ¬((18000000:ℚ) < t) := not_lt.mpr h3
    have mk : min t (18000000:ℚ) = t := min_eq_left h3
    simp only [pitWalk, pitClosedForm, PIT_BRACKETS, c0, cl1, nl1, mm1, cl2, nl2, mm2, nk, mk, h3, if_true, if_false]
    ring
  rcases le_or_lt t 32000000 with h4 | h4
  · have c0 : (0:ℚ) < t := by linarith
    have cl1 : ((5000000:ℚ) < t) := by linarith
    have nl1 : ¬(t ≤ (5000000:ℚ)) := not_le.mpr cl1
    have mm1 : min t (5000000:ℚ) = 5000000 := min_eq_right cl1.le
    have cl2 : ((10000000:ℚ) < t) := by linarith
    have nl2 : ¬(t ≤ (10000000:ℚ)) := not_le.mpr cl2
    have mm2 : min t (10000000:ℚ) = 10000000 := min_eq_right cl2.le
    have cl3 : ((18000000:ℚ) < t) := by linarith
    have nl3 : ¬(t ≤ (18000000:ℚ)) := not_le.mpr cl3
    have mm3 : min t (18000000:ℚ) = 18000000 := min_eq_right cl3.le
    have nk : ¬((32000000:ℚ) < t) := not_lt.mpr h4
    have mk : min t (32000000:ℚ) = t := min_eq_left h4
    simp only [pitWalk, pitClosedForm, PIT_BRACKETS, c0, cl1, nl1, mm1, cl2, nl2, mm2, cl3, nl3, mm3, nk, mk, h4, if_true, if_false]
    ring
  rcases le_or_lt t 52000000 with h5 | h5
  · have c0 : (0:ℚ) < t := by linarith
    have cl1 : ((5000000:ℚ) < t) := by linarith
    have nl1 : ¬(t ≤ (5000000:ℚ)) := not_le.mpr cl1
    have mm1 : min t (5000000:ℚ) = 5000000 := min_eq_right cl1.le
    have cl2 : ((10000000:ℚ) < t) := by linarith
    have nl2 : ¬(t ≤ (10000000:ℚ)) := not_le.mpr cl2
    have mm2 : min t (10000000:ℚ) = 10000000 := min_eq_right cl2.le
    have cl3 : ((18000000:ℚ) < t) := by linarith
    have nl3 : ¬(t ≤ (18000000:ℚ)) := not_le.mpr cl3
    have mm3 : min t (18000000:ℚ) = 18000000 := min_eq_right cl3.le
    have cl4 : ((32000000:ℚ) < t) := by linarith
    have nl4 : ¬(t ≤ (32000000:ℚ)) := not_le.mpr cl4
    have mm4 : min t (32000000:ℚ) = 32000000 := min_eq_right cl4.le
    have nk : ¬((52000000:ℚ) < t) := not_lt.mpr h5
    have mk : min t (52000000:ℚ) = t := min_eq_left h5
    simp only [pitWalk, pitClosedForm, PIT_BRACKETS, c0, cl1, nl1, mm1, cl2, nl2, mm2, cl3, nl3, mm3, cl4, nl4, mm4, nk, mk, h5, if_true, if_false]
    ring
  rcases le_or_lt t 80000000 with h6 | h6
  · have c0 : (0:ℚ) < t := by linarith
    have cl1 : ((5000000:ℚ) < t) := by linarith
    have nl1 : ¬(t ≤ (5000000:ℚ)) := not_le.mpr cl1
    have mm1 : min t (5000000:ℚ) = 5000000 := min_eq_right cl1.le
    have cl2 : ((10000000:ℚ) < t) := by linarith
    have nl2 : ¬(t ≤ (10000000:ℚ)) := not_le.mpr cl2
    have mm2 : min t (10000000:ℚ) = 10000000 := min_eq_right cl2.le
    have cl3 : ((18000000:ℚ) < t) := by linarith
    have nl3 : ¬(t ≤ (18000000:ℚ)) := not_le.mpr cl3
    have mm3 : min t (18000000:ℚ) = 18000000 := min_eq_right cl3.le
    have cl4 : ((32000000:ℚ) < t) := by linarith
    have nl4 : ¬(t ≤ (32000000:ℚ)) := not_le.mpr cl4
    have mm4 : min t (32000000:ℚ) = 32000000 := min_eq_right cl4.le
    have cl5 : ((52000000:ℚ) < t) := by linarith
    have nl5 : ¬(t ≤ (52000000:ℚ)) := not_le.mpr cl5
    have mm5 : min t (52000000:ℚ) = 52000000 := min_eq_right cl5.le
    have nk : ¬((80000000:ℚ) < t) := not_lt.mpr h6
    have mk : min t (80000000:ℚ) = t := min_eq_left h6
    simp only [pitWalk, pitClosedForm, PIT_BRACKETS, c0, cl1, nl1, mm1, cl2, nl2, mm2, cl3, nl3, mm3, cl4, nl4, mm4, cl5, nl5, mm5, nk, mk, h6, if_true, if_false]
    ring
  · have c0 : (0:ℚ) < t := by linarith
    have cl1 : ((5000000:ℚ) < t) := by linarith
    have nl1 : ¬(t ≤ (5000000:ℚ)) := not_le.mpr cl1
    have mm1 : min t (5000000:ℚ) = 5000000 := min_eq_right cl1.le
    have cl2 : ((10000000:ℚ) < t) := by linarith
    have nl2 : ¬(t ≤ (10000000:ℚ)) := not_le.mpr cl2
    have mm2 : min t (10000000:ℚ) = 10000000 := min_eq_right cl2.le
    have cl3 : ((18000000:ℚ) < t) := by linarith
    have nl3 : ¬(t ≤ (18000000:ℚ)) := not_le.mpr cl3
    have mm3 : min t (18000000:ℚ) = 18000000 := min_eq_right cl3.le
    have cl4 : ((32000000:ℚ) < t) := by linarith
    have nl4 : ¬(t ≤ (32000000:ℚ)) := not_le.mpr cl4
    have mm4 : min t (32000000:ℚ) = 32000000 := min_eq_right cl4.le
    have cl5 : ((52000000:ℚ) < t) := by linarith
    have nl5 : ¬(t ≤ (52000000:ℚ)) := not_le.mpr cl5
    have mm5 : min t (52000000:ℚ) = 52000000 := min_eq_right cl5.le
    have cl6 : ((80000000:ℚ) < t) := by linarith
    have nl6 : ¬(t ≤ (80000000:ℚ)) := not_le.mpr cl6
    have mm6 : min t (80000000:ℚ) = 80000000 := min_eq_right cl6.le
    simp only [pitWalk, pitClosedForm, PIT_BRACKETS, c0, cl1, nl1, mm1, cl2, nl2, mm2, cl3, nl3, mm3, cl4, nl4, mm4, cl5, nl5, mm5, cl6, nl6, mm6, if_true, if_false]
    ring

/-! ### Monotonicity and bounds for the insurance bases -/

theorem clampBase_mono {x y mw c : ℚ} (h : x ≤ y) :
    max (min (max x mw) c) mw ≤ max (min (max y mw) c) mw := by
  have h1 : max x mw ≤ max y mw := max_le_max h le_rfl
  have h2 : min (max x mw) c ≤ min (max y mw) c := min_le_min h1 le_rfl
  exact max_le_max h2 le_rfl

theorem clampBase_lipschitz {x y mw c : ℚ} (h : x ≤ y) :
    max (min (max y mw) c) mw - max (min (max x mw) c) mw ≤ y - x := by
  simp only [max_def, min_def]
  split_ifs <;> linarith

theorem salaryBaseBhxhBhyt_mono {g₁ g₂ mw : ℚ} (h : g₁ ≤ g₂) :
    salaryBaseBhxhBhyt g₁ mw ≤ salaryBaseBhxhBhyt g₂ mw :=
  clampBase_mono h

theorem salaryBaseBhxhBhyt_lipschitz {g₁ g₂ mw : ℚ} (h : g₁ ≤ g₂) :
    salaryBaseBhxhBhyt g₂ mw - salaryBaseBhxhBhyt g₁ mw ≤ g₂ - g₁ :=
  clampBase_lipschitz h

theorem salaryBaseBhtn_mono {g₁ g₂ mw : ℚ} (h : g₁ ≤ g₂) :
    salaryBaseBhtn g₁ mw ≤ salaryBaseBhtn g₂ mw :=
  clampBase_mono h

theorem salaryBaseBhtn_lipschitz {g₁ g₂ mw : ℚ} (h : g₁ ≤ g₂) :
    salaryBaseBhtn g₂ mw - salaryBaseBhtn g₁ mw ≤ g₂ - g₁ :=
  clampBase_lipschitz h

theorem preTaxIncome_mono {g₁ g₂ mw : ℚ} (h : g₁ ≤ g₂) :
    preTaxIncome g₁ mw ≤ preTaxIncome g₂ mw := by
  have h1 := @salaryBaseBhxhBhyt_mono g₁ g₂ mw h
  have h2 := @salaryBaseBhxhBhyt_lipschitz g₁ g₂ mw h
  have h3 := @salaryBaseBhtn_mono g₁ g₂ mw h
  have h4 := @salaryBaseBhtn_lipschitz g₁ g₂ mw h
  unfold preTaxIncome totalInsurance bhxh bhyt bhtn RATE_SOCIAL_INSURANCE
    RATE_HEALTH_INSURANCE RATE_UNEMPLOYMENT_INSURANCE
  linarith

theorem taxableIncome_mono_gross {g₁ g₂ : ℚ} {d : ℤ} {mw : ℚ} (h : g₁ ≤ g₂) :
    taxableIncome g₁ d mw ≤ taxableIncome g₂ d mw := by
  unfold taxableIncome
  exact max_le_max le_rfl (sub_le_sub_right (preTaxIncome_mono h) _)

theorem salaryBase_le_gross {g mw : ℚ} (hmw : mw ≤ g) {c : ℚ} :
    max (min (max g mw) c) mw ≤ g := by
  have h1 : max g mw = g := max_eq_left hmw
  rw [h1]
  exact max_le (min_le_left g c) hmw

theorem totalInsurance_le {g mw : ℚ} (hmw : mw ≤ g) :
    totalInsurance g mw ≤ (105/1000) * g := by
  have h1 : salaryBaseBhxhBhyt g mw ≤ g := salaryBase_le_gross hmw
  have h2 : salaryBaseBhtn g mw ≤ g := salaryBase_le_gross hmw
  unfold totalInsurance bhxh bhyt bhtn RATE_SOCIAL_INSURANCE
    RATE_HEALTH_INSURANCE RATE_UNEMPLOYMENT_INSURANCE
  nlinarith

theorem mw_le_salaryBaseBhxhBhyt (g mw : ℚ) : mw ≤ salaryBaseBhxhBhyt g mw :=
  le_max_right _ _

theorem mw_le_salaryBaseBhtn (g mw : ℚ) : mw ≤ salaryBaseBhtn g mw :=
  le_max_right _ _

theorem totalInsurance_nonneg {g mw : ℚ} (hmw : 0 ≤ mw) : 0 ≤ totalInsurance g mw := by
  have h1 := mw_le_salaryBaseBhxhBhyt g mw
  have h2 := mw_le_salaryBaseBhtn g mw
  unfold totalInsurance bhxh bhyt bhtn RATE_SOCIAL_INSURANCE
    RATE_HEALTH_INSURANCE RATE_UNEMPLOYMENT_INSURANCE
  nlinarith

theorem regional_mw_pos {r : ℤ} {mw : ℚ} (h : REGIONAL_MINIMUM_WAGES r = some mw) :
    0 < mw := by
  unfold REGIONAL_MINIMUM_WAGES at h
  split_ifs at h <;> simp_all <;> norm_num [← h]

theorem calculate_ok_iff {data : GrossNetInput} {res : GrossNetResult} :
    calculate_gross_to_net data = .ok res ↔
      ∃ mw, REGIONAL_MINIMUM_WAGES data.region = some mw ∧
        res = buildResult data.gross_income data.num_dependents mw := by
  cases h : REGIONAL_MINIMUM_WAGES data.region with
  | none => simp [calculate_gross_to_net, h]
  | some mw => simp [calculate_gross_to_net, h, eq_comm]

theorem calculate_error_iff {data : GrossNetInput} :
    (∃ e, calculate_gross_to_net data = .error e) ↔
      REGIONAL_MINIMUM_WAGES data.region = none := by
  cases h : REGIONAL_MINIMUM_WAGES data.region with
  | none => simp [calculate_gross_to_net, h]
  | some mw => simp [calculate_gross_to_net, h]

/-! ### Concrete evaluations of the calculator -/

theorem calc_eval_30M : calculate_gross_to_net ⟨30000000, 1, 1⟩ =
    .ok ⟨30000000, 25882500, 967500, 3150000, ⟨2400000, 450000, 300000, 3150000⟩,
      11450000, 26850000⟩ := by
  norm_num [calculate_gross_to_net, REGIONAL_MINIMUM_WAGES, buildResult, netIncomeUnrounded,
    pitRounded, pitUnrounded, pitWalk, PIT_BRACKETS, taxableIncome, preTaxIncome, totalAllowances,
    totalInsurance, bhxh, bhyt, bhtn, salaryBaseBhxhBhyt, salaryBaseBhtn, insuranceBase,
    BHXH_BHYT_MAX_BASE, BASE_SALARY_FOR_CAPS, BHXH_BHYT_CAP_MULTIPLIER, BHTN_CAP_MULTIPLIER,
    RATE_SOCIAL_INSURANCE, RATE_HEALTH_INSURANCE, RATE_UNEMPLOYMENT_INSURANCE,
    PERSONAL_ALLOWANCE, DEPENDENT_ALLOWANCE, pyRound, Int.even_iff]

theorem calc_eval_100k : calculate_gross_to_net ⟨100000, 0, 1⟩ =
    .ok ⟨100000, -420800, 0, 520800, ⟨396800, 74400, 49600, 520800⟩, 0, -420800⟩ := by
  norm_num [calculate_gross_to_net, REGIONAL_MINIMUM_WAGES, buildResult, netIncomeUnrounded,
    pitRounded, pitUnrounded, pitWalk, PIT_BRACKETS, taxableIncome, preTaxIncome, totalAllowances,
    totalInsurance, bhxh, bhyt, bhtn, salaryBaseBhxhBhyt, salaryBaseBhtn, insuranceBase,
    BHXH_BHYT_MAX_BASE, BASE_SALARY_FOR_CAPS, BHXH_BHYT_CAP_MULTIPLIER, BHTN_CAP_MULTIPLIER,
    RATE_SOCIAL_INSURANCE, RATE_HEALTH_INSURANCE, RATE_UNEMPLOYMENT_INSURANCE,
    PERSONAL_ALLOWANCE, DEPENDENT_ALLOWANCE, pyRound, Int.even_iff]

theorem calc_eval_16M_0 : calculate_gross_to_net ⟨16000000, 0, 1⟩ =
    .ok ⟨16000000, 14154000, 166000, 1680000, ⟨1280000, 240000, 160000, 1680000⟩,
      3320000, 14320000⟩ := by
  norm_num [calculate_gross_to_net, REGIONAL_MINIMUM_WAGES, buildResult, netIncomeUnrounded,
    pitRounded, pitUnrounded, pitWalk, PIT_BRACKETS, taxableIncome, preTaxIncome, totalAllowances,
    totalInsurance, bhxh, bhyt, bhtn, salaryBaseBhxhBhyt, salaryBaseBhtn, insuranceBase,
    BHXH_BHYT_MAX_BASE, BASE_SALARY_FOR_CAPS, BHXH_BHYT_CAP_MULTIPLIER, BHTN_CAP_MULTIPLIER,
    RATE_SOCIAL_INSURANCE, RATE_HEALTH_INSURANCE, RATE_UNEMPLOYMENT_INSURANCE,
    PERSONAL_ALLOWANCE, DEPENDENT_ALLOWANCE, pyRound, Int.even_iff]

theorem calc_eval_16M_1 : calculate_gross_to_net ⟨16000000, 1, 1⟩ =
    .ok ⟨16000000, 14320000, 0, 1680000, ⟨1280000, 240000, 160000, 1680000⟩, 0, 14320000⟩ := by
  norm_num [calculate_gross_to_net, REGIONAL_MINIMUM_WAGES, buildResult, netIncomeUnrounded,
    pitRounded, pitUnrounded, pitWalk, PIT_BRACKETS, taxableIncome, preTaxIncome, totalAllowances,
    totalInsurance, bhxh, bhyt, bhtn, salaryBaseBhxhBhyt, salaryBaseBhtn, insuranceBase,
    BHXH_BHYT_MAX_BASE, BASE_SALARY_FOR_CAPS, BHXH_BHYT_CAP_MULTIPLIER, BHTN_CAP_MULTIPLIER,
    RATE_SOCIAL_INSURANCE, RATE_HEALTH_INSURANCE, RATE_UNEMPLOYMENT_INSURANCE,
    PERSONAL_ALLOWANCE, DEPENDENT_ALLOWANCE, pyRound, Int.even_iff]

theorem calc_eval_10M5 : calculate_gross_to_net ⟨10000005, 0, 1⟩ =
    .ok ⟨10000005, 8950004, 0, 1050001, ⟨800000, 150000, 100000, 1050001⟩, 0, 8950004⟩ := by
  norm_num [calculate_gross_to_net, REGIONAL_MINIMUM_WAGES, buildResult, netIncomeUnrounded,
    pitRounded, pitUnrounded, pitWalk, PIT_BRACKETS, taxableIncome, preTaxIncome, totalAllowances,
    totalInsurance, bhxh, bhyt, bhtn, salaryBaseBhxhBhyt, salaryBaseBhtn, insuranceBase,
    BHXH_BHYT_MAX_BASE, BASE_SALARY_FOR_CAPS, BHXH_BHYT_CAP_MULTIPLIER, BHTN_CAP_MULTIPLIER,
    RATE_SOCIAL_INSURANCE, RATE_HEALTH_INSURANCE, RATE_UNEMPLOYMENT_INSURANCE,
    PERSONAL_ALLOWANCE, DEPENDENT_ALLOWANCE, pyRound, Int.even_iff]

/-! ### Claims C1 and C2 -/

/-- C1: the spec's pinned figures for gross=30,000,000, 1 dependent, region 1 are wrong
for PIT and net income: the documented bracket math gives PIT = 967,500 (not about
790,000) and net = 25,882,500 (not about 26,060,000). -/
theorem C1_counterexample :
    calculate_gross_to_net ⟨30000000, 1, 1⟩ =
      .ok ⟨30000000, 25882500, 967500, 3150000, ⟨2400000, 450000, 300000, 3150000⟩,
        11450000, 26850000⟩ ∧
    (100000 : ℤ) ≤ |(967500 : ℤ) - 790000| ∧
    (100000 : ℤ) ≤ |(25882500 : ℤ) - 26060000| :=
  ⟨calc_eval_30M, by decide, by decide⟩

/-- C1 (amended): for gross=30,000,000, 1 dependent, region 1 the calculator produces
insurance_base 30,000,000; bhxh 2,400,000; bhyt 450,000; bhtn 300,000; total insurance
3,150,000; pre-tax income 26,850,000; allowances 15,400,000; taxable income 11,450,000;
PIT 967,500; net income 25,882,500. -/
theorem C1_literal_scenario :
    calculate_gross_to_net ⟨30000000, 1, 1⟩ =
      .ok ⟨30000000, 25882500, 967500, 3150000, ⟨2400000, 450000, 300000, 3150000⟩,
        11450000, 26850000⟩ ∧
    insuranceBase 30000000 4960000 = 30000000 ∧
    totalAllowances 1 = 15400000 := by
  refine ⟨calc_eval_30M, ?_, ?_⟩
  · norm_num [insuranceBase]
  · norm_num [totalAllowances, PERSONAL_ALLOWANCE, DEPENDENT_ALLOWANCE]

/-- C2: the stored insurance `total` is `round(bhxh+bhyt+bhtn)`, not
`round(bhxh)+round(bhyt)+round(bhtn)`; at gross=10,000,005 (region 1) the two differ,
so the claimed post-rounding identity `total = social + health + unemployment` fails. -/
theorem C2_counterexample :
    calculate_gross_to_net ⟨10000005, 0, 1⟩ =
      .ok ⟨10000005, 8950004, 0, 1050001, ⟨800000, 150000, 100000, 1050001⟩, 0, 8950004⟩ ∧
    (1050001 : ℤ) ≠ 800000 + 150000 + 100000 :=
  ⟨calc_eval_10M5, by decide⟩

/-- C2 (amended): the stored `total` is the rounding of the unrounded sum
`bhxh+bhyt+bhtn`; it differs from the sum of the three independently rounded
components by at most 2 VND, and `pre_tax_income` is computed from the unrounded sum. -/
theorem C2_insurance_total (data : GrossNetInput) (res : GrossNetResult)
    (h : calculate_gross_to_net data = .ok res) :
    ∃ mw, REGIONAL_MINIMUM_WAGES data.region = some mw ∧
      res.insurance_breakdown.total =
        pyRound (bhxh data.gross_income mw + bhyt data.gross_income mw +
          bhtn data.gross_income mw) ∧
      |res.insurance_breakdown.total -
        (res.insurance_breakdown.social_insurance + res.insurance_breakdown.health_insurance +
          res.insurance_breakdown.unemployment_insurance)| ≤ 2 ∧
      res.total_insurance_contribution = res.insurance_breakdown.total ∧
      res.pre_tax_income = pyRound (data.gross_income - totalInsurance data.gross_income mw) := by
  obtain ⟨mw, hmw, rfl⟩ := calculate_ok_iff.mp h
  refine ⟨mw, hmw, rfl, ?_, rfl, rfl⟩
  set x1 := bhxh data.gross_income mw
  set x2 := bhyt data.gross_income mw
  set x3 := bhtn data.gross_income mw
  have hs : totalInsurance data.gross_income mw = x1 + x2 + x3 := rfl
  have h1a := pyRound_le (x1 + x2 + x3)
  have h1b := le_pyRound (x1 + x2 + x3)
  have h2a := pyRound_le x1
  have h2b := le_pyRound x1
  have h3a := pyRound_le x2
  have h3b := le_pyRound x2
  have h4a := pyRound_le x3
  have h4b := le_pyRound x3
  simp only [buildResult, hs]
  rw [abs_le]
  constructor
  · have hq : (-2 : ℚ) ≤
        ((pyRound (x1 + x2 + x3) - (pyRound x1 + pyRound x2 + pyRound x3) : ℤ) : ℚ) := by
      push_cast
      linarith
    exact_mod_cast hq
  · have hq : ((pyRound (x1 + x2 + x3) - (pyRound x1 + pyRound x2 + pyRound x3) : ℤ) : ℚ)
        ≤ 2 := by
      push_cast
      linarith
    exact_mod_cast hq

theorem C2_insurance_total_witness :
    REGIONAL_MINIMUM_WAGES 1 = some 4960000 ∧
    |(1050001 : ℤ) - (800000 + 150000 + 100000)| ≤ 2 := by
  obtain ⟨mw, hmw, -, habs, -, -⟩ := C2_insurance_total ⟨10000005, 0, 1⟩ _ calc_eval_10M5
  exact ⟨by norm_num [REGIONAL_MINIMUM_WAGES], by simpa using habs⟩

/-! ### Claims C3 and C4 -/

/-- C3: on the rounded output fields, net income equals gross minus total insurance
minus PIT up to 1 VND of independent-rounding drift. -/
theorem C3_net_identity (data : GrossNetInput) (res : GrossNetResult)
    (hg : 0 < data.gross_income) (hd : 0 ≤ data.num_dependents)
    (h : calculate_gross_to_net data = .ok res) :
    |res.net_income - (res.gross_income - res.total_insurance_contribution -
      res.personal_income_tax)| ≤ 1 := by
  obtain ⟨mw, hmw, rfl⟩ := calculate_ok_iff.mp h
  simp only [buildResult]
  set g := data.gross_income
  set b := totalInsurance g mw
  set p := pitRounded g data.num_dependents mw
  have hnet : netIncomeUnrounded g data.num_dependents mw = g - b - (p : ℚ) := rfl
  have h1a := pyRound_le (netIncomeUnrounded g data.num_dependents mw)
  have h1b := le_pyRound (netIncomeUnrounded g data.num_dependents mw)
  have h2a := pyRound_le g
  have h2b := le_pyRound g
  have h3a := pyRound_le b
  have h3b := le_pyRound b
  rw [hnet] at h1a h1b
  rw [abs_le]
  constructor
  · have hq : (-(3/2) : ℚ) ≤
        ((pyRound (netIncomeUnrounded g data.num_dependents mw) -
          (pyRound g - pyRound b - p) : ℤ) : ℚ) := by
      push_cast
      rw [hnet]
      push_cast
      linarith
    have : (-2 : ℤ) < pyRound (netIncomeUnrounded g data.num_dependents mw) -
        (pyRound g - pyRound b - p) := by
      have : ((-2 : ℤ) : ℚ) < ((pyRound (netIncomeUnrounded g data.num_dependents mw) -
          (pyRound g - pyRound b - p) : ℤ) : ℚ) := by
        push_cast at hq ⊢
        linarith
      exact_mod_cast this
    omega
  · have hq : ((pyRound (netIncomeUnrounded g data.num_dependents mw) -
        (pyRound g - pyRound b - p) : ℤ) : ℚ) ≤ 3/2 := by
      push_cast
      rw [hnet]
      push_cast
      linarith
    have : pyRound (netIncomeUnrounded g data.num_dependents mw) -
        (pyRound g - pyRound b - p) < 2 := by
      have : ((pyRound (netIncomeUnrounded g data.num_dependents mw) -
          (pyRound g - pyRound b - p) : ℤ) : ℚ) < ((2 : ℤ) : ℚ) := by
        push_cast at hq ⊢
        linarith
      exact_mod_cast this
    omega

theorem C3_net_identity_witness :
    calculate_gross_to_net ⟨30000000, 1, 1⟩ =
      .ok ⟨30000000, 25882500, 967500, 3150000, ⟨2400000, 450000, 300000, 3150000⟩,
        11450000, 26850000⟩ ∧
    |(25882500 : ℤ) - (30000000 - 3150000 - 967500)| ≤ 1 :=
  ⟨calc_eval_30M, by
    have h := C3_net_identity ⟨30000000, 1, 1⟩ _ (by norm_num) (by norm_num) calc_eval_30M
    simpa using h⟩

/-- C4: the calculator fails, with an error carrying the offending region, exactly when
the region is not 1, 2, 3 or 4; for a valid region it returns a result for any gross
income and any integer dependent count, with no further input validation. -/
theorem C4_region_validation (data : GrossNetInput) :
    (¬(data.region = 1 ∨ data.region = 2 ∨ data.region = 3 ∨ data.region = 4) →
      calculate_gross_to_net data = .error (.invalidRegion data.region)) ∧
    ((data.region = 1 ∨ data.region = 2 ∨ data.region = 3 ∨ data.region = 4) →
      calculate_gross_to_net data =
        .ok (buildResult data.gross_income data.num_dependents
          ((REGIONAL_MINIMUM_WAGES data.region).getD 0))) := by
  constructor
  · intro h
    have hnone : REGIONAL_MINIMUM_WAGES data.region = none := by
      unfold REGIONAL_MINIMUM_WAGES
      split_ifs with h1 h2 h3 h4 <;> tauto
    simp [calculate_gross_to_net, hnone]
  · rintro (h | h | h | h) <;>
      simp [calculate_gross_to_net, REGIONAL_MINIMUM_WAGES, h]

theorem C4_region_validation_witness :
    (calculate_gross_to_net ⟨-5, -3, 7⟩ = .error (.invalidRegion 7)) ∧
    (calculate_gross_to_net ⟨-5, -3, 2⟩ =
      .ok (buildResult (-5) (-3) ((REGIONAL_MINIMUM_WAGES 2).getD 0))) :=
  ⟨(C4_region_validation ⟨-5, -3, 7⟩).1 (by decide),
   (C4_region_validation ⟨-5, -3, 2⟩).2 (by decide)⟩

/-! ### PIT bounds and claim C5 -/

theorem pitClosedForm_le (t : ℚ) (ht : 0 ≤ t) :
    pitClosedForm t PIT_BRACKETS ≤ (35/100) * t := by
  simp only [pitClosedForm, PIT_BRACKETS]
  split_ifs <;> linarith

theorem pitUnrounded_le (t : ℚ) (ht : 0 ≤ t) : pitUnrounded t ≤ (35/100) * t := by
  rw [pitUnrounded, pitWalk_eq_closedForm t ht]
  exact pitClosedForm_le t ht

theorem pitUnrounded_nonneg (t : ℚ) : 0 ≤ pitUnrounded t :=
  pitWalk_nonneg t 0 PIT_BRACKETS chainFrom_PIT_BRACKETS

theorem pitUnrounded_zero : pitUnrounded 0 = 0 := by
  norm_num [pitUnrounded, pitWalk, PIT_BRACKETS]

theorem pyRound_zero : pyRound 0 = 0 := by
  have := pyRound_intCast 0
  simpa using this

theorem taxableIncome_nonneg (g : ℚ) (d : ℤ) (mw : ℚ) : 0 ≤ taxableIncome g d mw :=
  le_max_left 0 _

/-- The rounded PIT never exceeds the taxable income's unrounded PIT by more
than half a unit, and net income stays non-negative whenever gross income
is at least the regional minimum wage. -/
theorem netIncomeUnrounded_nonneg {g : ℚ} {d : ℤ} {mw : ℚ}
    (hmw : 0 < mw) (hg : mw ≤ g) (hd : 0 ≤ d) :
    0 ≤ netIncomeUnrounded g d mw := by
  have hg0 : 0 ≤ g := le_trans hmw.le hg
  have hTI : totalInsurance g mw ≤ (105/1000) * g := totalInsurance_le hg
  have hpre : 0 ≤ preTaxIncome g mw := by
    unfold preTaxIncome
    linarith
  set t := taxableIncome g d mw with hts
  have ht0 : 0 ≤ t := taxableIncome_nonneg g d mw
  have hpit0 : 0 ≤ pitUnrounded t := pitUnrounded_nonneg t
  have hround0 : 0 ≤ pyRound (pitUnrounded t) := pyRound_nonneg hpit0
  have hpr : pitRounded g d mw = pyRound (pitUnrounded t) := by
    unfold pitRounded
    rw [← hts]
    omega
  have hple : (pitRounded g d mw : ℚ) ≤ pitUnrounded t + 1/2 := by
    rw [hpr]
    exact pyRound_le _
  have hallow : (11000000 : ℚ) ≤ totalAllowances d := by
    unfold totalAllowances PERSONAL_ALLOWANCE DEPENDENT_ALLOWANCE
    have : (0:ℚ) ≤ (d:ℚ) := by exact_mod_cast hd
    linarith
  have hnet : netIncomeUnrounded g d mw =
      preTaxIncome g mw - (pitRounded g d mw : ℚ) := by
    unfold netIncomeUnrounded preTaxIncome
    ring
  rcases le_or_lt (preTaxIncome g mw - totalAllowances d) 0 with hcase | hcase
  · have htz : t = 0 := by
      rw [hts]
      unfold taxableIncome
      exact max_eq_left hcase
    have : pitRounded g d mw = 0 := by
      rw [hpr, htz, pitUnrounded_zero, pyRound_zero]
    rw [hnet, this]
    push_cast
    linarith
  · have htv : t = preTaxIncome g mw - totalAllowances d := by
      rw [hts]
      unfold taxableIncome
      exact max_eq_right hcase.le
    have hle : pitUnrounded t ≤ (35/100) * t := pitUnrounded_le t ht0
    rw [hnet]
    rw [htv] at hle hple
    linarith

/-- C5: the claim that every output field is non-negative fails: with
gross=100,000 (region 1, valid input) the insurance floor exceeds the gross
income and both pre-tax income and net income are negative. -/
theorem C5_counterexample :
    calculate_gross_to_net ⟨100000, 0, 1⟩ =
      .ok ⟨100000, -420800, 0, 520800, ⟨396800, 74400, 49600, 520800⟩, 0, -420800⟩ ∧
    (0 : ℚ) < 100000 ∧ (0 : ℤ) ≤ 0 ∧
    (-420800 : ℤ) < 0 :=
  ⟨calc_eval_100k, by norm_num, le_refl 0, by decide⟩

/-- C5 (amended): gross income, PIT, total insurance and taxable income are always
non-negative on valid inputs; net income and pre-tax income are non-negative
provided the gross income is at least the regional minimum wage (below the
insurance floor they can go negative). -/
theorem C5_nonneg_fields (data : GrossNetInput) (res : GrossNetResult)
    (hg : 0 < data.gross_income) (hd : 0 ≤ data.num_dependents)
    (h : calculate_gross_to_net data = .ok res) :
    0 ≤ res.gross_income ∧ 0 ≤ res.personal_income_tax ∧
    0 ≤ res.total_insurance_contribution ∧ 0 ≤ res.taxable_income ∧
    (∀ mw, REGIONAL_MINIMUM_WAGES data.region = some mw → mw ≤ data.gross_income →
      0 ≤ res.net_income ∧ 0 ≤ res.pre_tax_income) := by
  obtain ⟨mw, hmw, rfl⟩ := calculate_ok_iff.mp h
  have hmwpos : 0 < mw := regional_mw_pos hmw
  refine ⟨pyRound_nonneg hg.le, le_max_left 0 _,
    pyRound_nonneg (totalInsurance_nonneg hmwpos.le),
    pyRound_nonneg (taxableIncome_nonneg _ _ _), ?_⟩
  intro mw' hmw' hge
  rw [hmw] at hmw'
  injection hmw' with hmm
  subst hmm
  have h1 : 0 ≤ netIncomeUnrounded data.gross_income data.num_dependents mw :=
    netIncomeUnrounded_nonneg hmwpos hge hd
  have h2 : 0 ≤ preTaxIncome data.gross_income mw := by
    have := totalInsurance_le hge
    unfold preTaxIncome
    have hg0 : 0 ≤ data.gross_income := le_trans hmwpos.le hge
    linarith
  exact ⟨pyRound_nonneg h1, pyRound_nonneg h2⟩

theorem C5_nonneg_fields_witness :
    calculate_gross_to_net ⟨30000000, 1, 1⟩ =
      .ok ⟨30000000, 25882500, 967500, 3150000, ⟨2400000, 450000, 300000, 3150000⟩,
        11450000, 26850000⟩ ∧
    (0 : ℤ) ≤ 30000000 ∧ (0 : ℤ) ≤ 967500 ∧ (0 : ℤ) ≤ 3150000 ∧
    (0 : ℤ) ≤ 11450000 ∧ (0 : ℤ) ≤ 25882500 ∧ (0 : ℤ) ≤ 26850000 := by
  have h := C5_nonneg_fields ⟨30000000, 1, 1⟩ _ (by norm_num) (by norm_num) calc_eval_30M
  obtain ⟨h1, h2, h3, h4, h5⟩ := h
  have h6 := h5 4960000 (by norm_num [REGIONAL_MINIMUM_WAGES]) (by norm_num)
  exact ⟨calc_eval_30M, by simpa using h1, by simpa using h2, by simpa using h3,
    by simpa using h4, by simpa using h6.1, by simpa using h6.2⟩

/-! ### Claim C6: dependent-count monotonicity -/

theorem totalAllowances_succ (d : ℤ) :
    totalAllowances (d + 1) = totalAllowances d + 4400000 := by
  unfold totalAllowances PERSONAL_ALLOWANCE DEPENDENT_ALLOWANCE
  push_cast
  ring

theorem taxableIncome_succ (g : ℚ) (d : ℤ) (mw : ℚ) :
    taxableIncome g (d + 1) mw = max 0 (taxableIncome g d mw - 4400000) := by
  unfold taxableIncome
  rw [totalAllowances_succ]
  rcases le_total (preTaxIncome g mw - totalAllowances d) 0 with hc | hc
  · rw [max_eq_left hc, max_eq_left (by linarith), max_eq_left (by linarith)]
  · rw [max_eq_right hc]
    ring_nf

theorem pitRounded_mono_taxable {g₁ g₂ : ℚ} {d₁ d₂ : ℤ} {mw₁ mw₂ : ℚ}
    (h : taxableIncome g₁ d₁ mw₁ ≤ taxableIncome g₂ d₂ mw₂) :
    pitRounded g₁ d₁ mw₁ ≤ pitRounded g₂ d₂ mw₂ := by
  unfold pitRounded pitUnrounded
  have hw := pitWalk_mono h 0 PIT_BRACKETS chainFrom_PIT_BRACKETS
  have hr := pyRound_mono hw
  omega

/-- C6: increasing the dependent count by one does not always decrease taxable income
by exactly the dependent allowance: at gross=16,000,000 (region 1) taxable income goes
from 3,320,000 (not clamped at 0) to 0, a drop of 3,320,000 rather than 4,400,000. -/
theorem C6_counterexample :
    calculate_gross_to_net ⟨16000000, 0, 1⟩ =
      .ok ⟨16000000, 14154000, 166000, 1680000, ⟨1280000, 240000, 160000, 1680000⟩,
        3320000, 14320000⟩ ∧
    calculate_gross_to_net ⟨16000000, 1, 1⟩ =
      .ok ⟨16000000, 14320000, 0, 1680000, ⟨1280000, 240000, 160000, 1680000⟩, 0, 14320000⟩ ∧
    (3320000 : ℤ) ≠ 0 ∧ (3320000 : ℤ) - 0 ≠ 4400000 :=
  ⟨calc_eval_16M_0, calc_eval_16M_1, by decide, by decide⟩

/-- C6 (amended): adding one dependent never increases PIT, never increases taxable
income, and decreases the stored taxable income by exactly the dependent allowance
4,400,000 whenever the stored taxable income was at least that allowance; below that
the new taxable income clamps to 0. -/
theorem C6_dependent_monotonicity (g : ℚ) (d : ℤ) (r : ℤ)
    (res res' : GrossNetResult)
    (hg : 0 < g) (hd : 0 ≤ d)
    (h : calculate_gross_to_net ⟨g, d, r⟩ = .ok res)
    (h' : calculate_gross_to_net ⟨g, d + 1, r⟩ = .ok res') :
    res'.personal_income_tax ≤ res.personal_income_tax ∧
    res'.taxable_income ≤ res.taxable_income ∧
    (4400000 ≤ res.taxable_income → res'.taxable_income = res.taxable_income - 4400000) ∧
    (res.taxable_income < 4400000 → res'.taxable_income = 0) := by
  obtain ⟨mw, hmw, rfl⟩ := calculate_ok_iff.mp h
  obtain ⟨mw', hmw', rfl⟩ := calculate_ok_iff.mp h'
  simp only at hmw hmw' ⊢
  rw [hmw] at hmw'
  injection hmw' with hmm
  subst hmm
  have hsucc := taxableIncome_succ g d mw
  have hmono : taxableIncome g (d + 1) mw ≤ taxableIncome g d mw := by
    rw [hsucc]
    have h0 := taxableIncome_nonneg g d mw
    rcases le_total (taxableIncome g d mw - 4400000) 0 with hc | hc
    · rw [max_eq_left hc]; exact h0
    · rw [max_eq_right hc]; linarith
  refine ⟨pitRounded_mono_taxable hmono, pyRound_mono hmono, ?_, ?_⟩
  · intro hge
    simp only [buildResult] at hge ⊢
    set t := taxableIncome g d mw with hts
    have ht0 : 0 ≤ t := taxableIncome_nonneg g d mw
    rcases le_total 4400000 t with htc | htc
    · have hnew : taxableIncome g (d + 1) mw = t - 4400000 := by
        rw [hsucc]
        exact max_eq_right (by linarith)
      rw [hnew]
      have hshift : t - (4400000:ℚ) = t + ((-4400000 : ℤ) : ℚ) := by push_cast; ring
      rw [hshift, pyRound_add_int t (-4400000) (by decide)]
      ring
    · have hub := pyRound_le t
      have hlt1 : ((pyRound t : ℤ) : ℚ) < 4400001 := by linarith
      have hlt : pyRound t < 4400001 := by exact_mod_cast hlt1
      have heq : pyRound t = 4400000 := by omega
      have hnew : taxableIncome g (d + 1) mw = 0 := by
        rw [hsucc]
        exact max_eq_left (by linarith)
      rw [hnew, pyRound_zero, heq]
      ring
  · intro hlt
    simp only [buildResult] at hlt ⊢
    set t := taxableIncome g d mw with hts
    have hlb := le_pyRound t
    have h1 : pyRound t ≤ 4399999 := by omega
    have h2 : ((pyRound t : ℤ) : ℚ) ≤ 4399999 := by exact_mod_cast h1
    have hnew : taxableIncome g (d + 1) mw = 0 := by
      rw [hsucc]
      exact max_eq_left (by linarith)
    rw [hnew, pyRound_zero]

theorem C6_dependent_monotonicity_witness :
    calculate_gross_to_net ⟨30000000, 1, 1⟩ =
      .ok ⟨30000000, 25882500, 967500, 3150000, ⟨2400000, 450000, 300000, 3150000⟩,
        11450000, 26850000⟩ ∧
    calculate_gross_to_net ⟨30000000, 2, 1⟩ =
      .ok ⟨30000000, 26395000, 455000, 3150000, ⟨2400000, 450000, 300000, 3150000⟩,
        7050000, 26850000⟩ ∧
    (455000 : ℤ) ≤ 967500 ∧ (7050000 : ℤ) ≤ 11450000 ∧
    (7050000 : ℤ) = 11450000 - 4400000 := by
  have h2 : calculate_gross_to_net ⟨30000000, 2, 1⟩ =
      .ok ⟨30000000, 26395000, 455000, 3150000, ⟨2400000, 450000, 300000, 3150000⟩,
        7050000, 26850000⟩ := by
    norm_num [calculate_gross_to_net, REGIONAL_MINIMUM_WAGES, buildResult, netIncomeUnrounded,
      pitRounded, pitUnrounded, pitWalk, PIT_BRACKETS, taxableIncome, preTaxIncome,
      totalAllowances, totalInsurance, bhxh, bhyt, bhtn, salaryBaseBhxhBhyt, salaryBaseBhtn,
      insuranceBase, BHXH_BHYT_MAX_BASE, BASE_SALARY_FOR_CAPS, BHXH_BHYT_CAP_MULTIPLIER,
      BHTN_CAP_MULTIPLIER, RATE_SOCIAL_INSURANCE, RATE_HEALTH_INSURANCE,
      RATE_UNEMPLOYMENT_INSURANCE, PERSONAL_ALLOWANCE, DEPENDENT_ALLOWANCE, pyRound,
      Int.even_iff]
  have h := C6_dependent_monotonicity 30000000 1 1 _ _ (by norm_num) (by norm_num)
    calc_eval_30M h2
  obtain ⟨ha, hb, hc, -⟩ := h
  exact ⟨calc_eval_30M, h2, by simpa using ha, by simpa using hb,
    by simpa using hc (by norm_num)⟩

/-! ### Claims C7, C8, C9 -/

/-- C7: PIT is non-negative and weakly increasing in gross income for fixed
dependents and region. -/
theorem C7_pit_monotone_gross (g₁ g₂ : ℚ) (d r : ℤ) (res₁ res₂ : GrossNetResult)
    (hg : 0 < g₁) (hgle : g₁ ≤ g₂) (hd : 0 ≤ d)
    (h₁ : calculate_gross_to_net ⟨g₁, d, r⟩ = .ok res₁)
    (h₂ : calculate_gross_to_net ⟨g₂, d, r⟩ = .ok res₂) :
    0 ≤ res₁.personal_income_tax ∧
    res₁.personal_income_tax ≤ res₂.personal_income_tax := by
  obtain ⟨mw, hmw, rfl⟩ := calculate_ok_iff.mp h₁
  obtain ⟨mw', hmw', rfl⟩ := calculate_ok_iff.mp h₂
  simp only at hmw hmw' ⊢
  rw [hmw] at hmw'
  injection hmw' with hmm
  subst hmm
  constructor
  · exact le_max_left 0 _
  · exact pitRounded_mono_taxable (taxableIncome_mono_gross hgle)

theorem C7_pit_monotone_gross_witness :
    calculate_gross_to_net ⟨16000000, 1, 1⟩ =
      .ok ⟨16000000, 14320000, 0, 1680000, ⟨1280000, 240000, 160000, 1680000⟩, 0, 14320000⟩ ∧
    calculate_gross_to_net ⟨30000000, 1, 1⟩ =
      .ok ⟨30000000, 25882500, 967500, 3150000, ⟨2400000, 450000, 300000, 3150000⟩,
        11450000, 26850000⟩ ∧
    (0 : ℤ) ≤ 0 ∧ (0 : ℤ) ≤ 967500 := by
  have h := C7_pit_monotone_gross 16000000 30000000 1 1 _ _ (by norm_num) (by norm_num)
    (by norm_num) calc_eval_16M_1 calc_eval_30M
  exact ⟨calc_eval_16M_1, calc_eval_30M, by simpa using h.1, by simpa using h.2⟩

/-- C8: for every non-negative taxable income, the bracket walk of the source equals
the spec's closed form `taxable * rate - cumulative_deduction` taken at the first
bracket whose limit is at least the taxable income, over the literal bracket table. -/
theorem C8_walk_eq_closed_form (t : ℚ) (ht : 0 ≤ t) :
    pitWalk t 0 PIT_BRACKETS = pitClosedForm t PIT_BRACKETS :=
  pitWalk_eq_closedForm t ht

theorem C8_walk_eq_closed_form_witness :
    (0 : ℚ) ≤ 11450000 ∧
    pitWalk 11450000 0 PIT_BRACKETS = pitClosedForm 11450000 PIT_BRACKETS ∧
    pitWalk 11450000 0 PIT_BRACKETS = 967500 := by
  refine ⟨by norm_num, C8_walk_eq_closed_form 11450000 (by norm_num), ?_⟩
  norm_num [pitWalk, PIT_BRACKETS]

/-- C9: every rounding the calculator performs is one and the same function
`pyRound`, Python's round-half-to-even (ties go to the even integer), applied to
the three insurance components, the insurance total, the PIT, and the output
fields gross, net, taxable and pre-tax income. -/
theorem C9_rounding_consistency :
    (∀ n : ℤ, pyRound ((n : ℚ) + 1/2) = if Even n then n else n + 1) ∧
    (∀ (g : ℚ) (d : ℤ) (mw : ℚ),
      (buildResult g d mw).gross_income = pyRound g ∧
      (buildResult g d mw).net_income = pyRound (netIncomeUnrounded g d mw) ∧
      (buildResult g d mw).personal_income_tax =
        max 0 (pyRound (pitUnrounded (taxableIncome g d mw))) ∧
      (buildResult g d mw).total_insurance_contribution = pyRound (totalInsurance g mw) ∧
      (buildResult g d mw).insurance_breakdown.social_insurance = pyRound (bhxh g mw) ∧
      (buildResult g d mw).insurance_breakdown.health_insurance = pyRound (bhyt g mw) ∧
      (buildResult g d mw).insurance_breakdown.unemployment_insurance = pyRound (bhtn g mw) ∧
      (buildResult g d mw).insurance_breakdown.total = pyRound (totalInsurance g mw) ∧
      (buildResult g d mw).taxable_income = pyRound (taxableIncome g d mw) ∧
      (buildResult g d mw).pre_tax_income = pyRound (preTaxIncome g mw)) := by
  constructor
  · intro n
    unfold pyRound
    have hfl : ⌊(n : ℚ) + 1/2⌋ = n := by
      rw [add_comm, Int.floor_add_int]
      norm_num
    rw [hfl]
    have hfr : (n : ℚ) + 1/2 - (n : ℚ) = 1/2 := by ring
    rw [hfr]
    norm_num
  · intro g d mw
    exact ⟨rfl, rfl, rfl, rfl, rfl, rfl, rfl, rfl, rfl, rfl⟩

/-! ### Claim C10: the batch loop -/

/-- A batch row is valid when its three cells satisfy the documented constraints. -/
def validRow (row : BatchRow) : Prop :=
  0 < row.GrossIncome ∧ 0 ≤ row.Dependents ∧
    (row.Region = 1 ∨ row.Region = 2 ∨ row.Region = 3 ∨ row.Region = 4)

theorem processRow_valid {row : BatchRow} (h : validRow row) :
    (processRow row).CalculationStatus = "Success" ∧ (processRow row).ErrorMessage = "" := by
  obtain ⟨hg, hd, hr⟩ := h
  have hcond : ¬(row.GrossIncome ≤ 0 ∨ row.Dependents < 0 ∨
      ¬(row.Region = 1 ∨ row.Region = 2 ∨ row.Region = 3 ∨ row.Region = 4)) := by
    push_neg
    exact ⟨hg, hd, hr⟩
  unfold processRow
  rw [if_neg hcond]
  rcases hr with h1 | h1 | h1 | h1 <;>
    simp [calculate_gross_to_net, REGIONAL_MINIMUM_WAGES, h1]

theorem processRow_invalid_region {row : BatchRow}
    (h : ¬(row.Region = 1 ∨ row.Region = 2 ∨ row.Region = 3 ∨ row.Region = 4)) :
    (processRow row).CalculationStatus = "Error" ∧ (processRow row).ErrorMessage ≠ "" := by
  unfold processRow
  rw [if_pos (Or.inr (Or.inr h))]
  exact ⟨rfl, by decide⟩

/-- C10: the batch loop produces exactly one output row per input row in input order;
a row with an out-of-range region gets status Error and a non-empty message, every
valid row gets status Success and an empty message, and the loop itself is total. -/
theorem C10_batch_per_row (rows : List BatchRow) :
    (processBatch rows).length = rows.length ∧
    ∀ i (h : i < rows.length),
      (processBatch rows).get ⟨i, by simpa [processBatch] using h⟩ =
        processRow (rows.get ⟨i, h⟩) ∧
      (validRow (rows.get ⟨i, h⟩) →
        (processRow (rows.get ⟨i, h⟩)).CalculationStatus = "Success" ∧
        (processRow (rows.get ⟨i, h⟩)).ErrorMessage = "") ∧
      (¬((rows.get ⟨i, h⟩).Region = 1 ∨ (rows.get ⟨i, h⟩).Region = 2 ∨
          (rows.get ⟨i, h⟩).Region = 3 ∨ (rows.get ⟨i, h⟩).Region = 4) →
        (processRow (rows.get ⟨i, h⟩)).CalculationStatus = "Error" ∧
        (processRow (rows.get ⟨i, h⟩)).ErrorMessage ≠ "") := by
  refine ⟨by simp [processBatch], ?_⟩
  intro i h
  refine ⟨?_, fun hv => processRow_valid hv, fun hr => processRow_invalid_region hr⟩
  simp [processBatch]

theorem C10_batch_per_row_witness :
    (processBatch [⟨30000000, 1, 1⟩, ⟨20000000, 0, 5⟩]).length = 2 ∧
    (processRow ⟨30000000, 1, 1⟩).CalculationStatus = "Success" ∧
    (processRow ⟨30000000, 1, 1⟩).ErrorMessage = "" ∧
    (processRow ⟨20000000, 0, 5⟩).CalculationStatus = "Error" ∧
    (processRow ⟨20000000, 0, 5⟩).ErrorMessage ≠ "" := by
  obtain ⟨hlen, hall⟩ := C10_batch_per_row [⟨30000000, 1, 1⟩, ⟨20000000, 0, 5⟩]
  have h0 := (hall 0 (by norm_num)).2.1 (by
    refine ⟨by norm_num, by norm_num, ?_⟩
    norm_num)
  have h1 := (hall 1 (by norm_num)).2.2 (by norm_num)
  exact ⟨hlen, h0.1, h0.2, h1.1, h1.2⟩

end GrossToNet
